import Mathlib

/-!
Verification of the pyparseJS translation pipeline (lexer.py, parser.py,
transformer.py) against its natural-language specification.

The development is a shallow embedding of the three source files:
  * `tokenize` embeds lexer.py's regex-table scanner (`master_pat.finditer`
    over the ordered category table, with SKIP dropped and STRING values
    unquoted and escape-decoded);
  * `Parser.parse` and friends embed parser.py's cursor-based recursive
    descent (fuel-indexed so that every function is structurally recursive
    and kernel-reducible; fuel exhaustion is a distinguished error that
    never fires on the concrete inputs used below);
  * `transform_node` embeds transformer.py's structural recursion over the
    AST.
Python floats only ever enter the pipeline as `float(tok)` for a token
matching `\d+(\.\d+)?` and leave as `str(value)`; `PyFloat` models this
value domain exactly (integer part plus trimmed decimal fraction digits),
which coincides with CPython semantics for all such short decimal literals.
-/

namespace PyParseJS

/-- A lexical token, embedding the namedtuple `Token("type", "value")` of
lexer.py. -/
structure Token where
  type : String
  value : String
deriving DecidableEq, Repr

/-! ### Lexer (lexer.py)

The module-level table `token_spec` is an ordered alternation; Python's
`re` picks, at each scan position, the first category of the table that
matches there (each category itself matching greedily).  `finditer` yields
the leftmost such matches and silently steps over characters at which no
category matches.  The character classes below spell out the regexes of
`token_spec` (for the ASCII inputs this repository processes; Python's
`\w`/`\d` are Unicode-aware, which no claim exercises). -/

def isDigitC (c : Char) : Bool := c.isDigit

def isWordC (c : Char) : Bool := c.isAlphanum || c = '_'

def isIdStartC (c : Char) : Bool := c.isAlpha || c = '_'

def isOpC (c : Char) : Bool :=
  c = '+' || c = '-' || c = '*' || c = '/' || c = '=' || c = '<' || c = '>' || c = '!'

def isPunctC (c : Char) : Bool :=
  c = '\x7b' || c = '\x7d' || c = '[' || c = ']' || c = '(' || c = ')' ||
  c = '.' || c = ',' || c = ';' || c = ':'

def isSkipC (c : Char) : Bool := c = ' ' || c = '\t'

/-- Category NUMBER, regex `\d+(\.\d+)?`: greedy digit run, then optionally
a dot followed by a nonempty greedy digit run. -/
def matchNumber (cs : List Char) : Option (List Char × List Char) :=
  let ds := cs.takeWhile isDigitC
  if ds.isEmpty then none
  else
    match cs.drop ds.length with
    | '.' :: r2 =>
      let fs := r2.takeWhile isDigitC
      if fs.isEmpty then some (ds, cs.drop ds.length)
      else some (ds ++ '.' :: fs, r2.drop fs.length)
    | rest => some (ds, rest)

/-- Category STRING, regex `"[^"]*"|'[^']*'`: a double-quoted or
single-quoted run with no embedded quote of the same kind; an unterminated
quote matches nothing. -/
def matchStringLit (cs : List Char) : Option (List Char × List Char) :=
  match cs with
  | '\"' :: r =>
    let body := r.takeWhile (fun c => c != '\"')
    (match r.drop body.length with
     | '\"' :: r2 => some ('\"' :: body ++ ['\"'], r2)
     | _ => none)
  | '\'' :: r =>
    let body := r.takeWhile (fun c => c != '\'')
    (match r.drop body.length with
     | '\'' :: r2 => some ('\'' :: body ++ ['\''], r2)
     | _ => none)
  | _ => none

/-- Category ID, regex `[A-Za-z_]\w*`. -/
def matchId (cs : List Char) : Option (List Char × List Char) :=
  match cs with
  | c :: r =>
    if isIdStartC c then
      let ws := r.takeWhile isWordC
      some (c :: ws, r.drop ws.length)
    else none
  | [] => none

/-- Category OP, regex `[+\-*/=<>!]+`: a greedy nonempty run. -/
def matchOp (cs : List Char) : Option (List Char × List Char) :=
  let os := cs.takeWhile isOpC
  if os.isEmpty then none else some (os, cs.drop os.length)

/-- Category DOT, regex `\.`. -/
def matchDot (cs : List Char) : Option (List Char × List Char) :=
  match cs with
  | '.' :: r => some (['.'], r)
  | _ => none

/-- Category PUNCT, regex `[{}\[\]().,;:]`. -/
def matchPunct (cs : List Char) : Option (List Char × List Char) :=
  match cs with
  | c :: r => if isPunctC c then some ([c], r) else none
  | [] => none

/-- Category SKIP, regex `[ \t]+`. -/
def matchSkip (cs : List Char) : Option (List Char × List Char) :=
  let ss := cs.takeWhile isSkipC
  if ss.isEmpty then none else some (ss, cs.drop ss.length)

/-- Category NEWLINE, regex `\n`. -/
def matchNewline (cs : List Char) : Option (List Char × List Char) :=
  match cs with
  | '\n' :: r => some (['\n'], r)
  | _ => none

/-- One attempt of `master_pat` at the current position: the categories of
`token_spec` are tried in table order and the first that matches wins. -/
def matchAt (cs : List Char) : Option (String × List Char × List Char) :=
  match matchNumber cs with
  | some (t, r) => some ("NUMBER", t, r)
  | none =>
  match matchStringLit cs with
  | some (t, r) => some ("STRING", t, r)
  | none =>
  match matchId cs with
  | some (t, r) => some ("ID", t, r)
  | none =>
  match matchOp cs with
  | some (t, r) => some ("OP", t, r)
  | none =>
  match matchDot cs with
  | some (t, r) => some ("DOT", t, r)
  | none =>
  match matchPunct cs with
  | some (t, r) => some ("PUNCT", t, r)
  | none =>
  match matchSkip cs with
  | some (t, r) => some ("SKIP", t, r)
  | none =>
  match matchNewline cs with
  | some (t, r) => some ("NEWLINE", t, r)
  | none => none

/-- The scan loop of `master_pat.finditer`: collect leftmost non-overlapping
matches; at a position where no category matches, step over one character
and continue (finditer yields no match there, so the byte is dropped).
Every successful match consumes at least one character, so fuel equal to
the input length is exact. -/
def scanAux : Nat → List Char → List (String × List Char)
  | 0, _ => []
  | _, [] => []
  | fuel + 1, cs =>
    match matchAt cs with
    | some (kind, text, rest) => (kind, text) :: scanAux fuel rest
    | none =>
      match cs with
      | [] => []
      | _ :: cs2 => scanAux fuel cs2

def hexVal (c : Char) : Nat :=
  if '0' ≤ c && c ≤ '9' then c.toNat - 48
  else if 'a' ≤ c && c ≤ 'f' then c.toNat - 87
  else if 'A' ≤ c && c ≤ 'F' then c.toNat - 55
  else 0

def isHexC (c : Char) : Bool :=
  ('0' ≤ c && c ≤ '9') || ('a' ≤ c && c ≤ 'f') || ('A' ≤ c && c ≤ 'F')

def isOctC (c : Char) : Bool := '0' ≤ c && c ≤ '7'

def octVal (c : Char) : Nat := c.toNat - 48

/-- One step of `.decode("unicode_escape")` as applied in lexer.py: the
standard single-character escapes, octal escapes of one to three digits and
`\xhh` are resolved; a backslash before a newline is a line continuation;
an unrecognized escape keeps its backslash (CPython keeps it and warns; the
error cases of a malformed `\x` or trailing backslash, which no claim
exercises, are likewise modelled as text kept verbatim).  Fuel-indexed so
that the recursion is structural; every step consumes at least one
character. -/
def uniEscAux : Nat → List Char → List Char
  | 0, cs => cs
  | fuel + 1, cs =>
    match cs with
    | [] => []
    | '\\' :: 'n' :: r => '\n' :: uniEscAux fuel r
    | '\\' :: 't' :: r => '\t' :: uniEscAux fuel r
    | '\\' :: 'r' :: r => '\r' :: uniEscAux fuel r
    | '\\' :: '\\' :: r => '\\' :: uniEscAux fuel r
    | '\\' :: '\'' :: r => '\'' :: uniEscAux fuel r
    | '\\' :: '\"' :: r => '\"' :: uniEscAux fuel r
    | '\\' :: 'a' :: r => Char.ofNat 7 :: uniEscAux fuel r
    | '\\' :: 'b' :: r => Char.ofNat 8 :: uniEscAux fuel r
    | '\\' :: 'f' :: r => Char.ofNat 12 :: uniEscAux fuel r
    | '\\' :: 'v' :: r => Char.ofNat 11 :: uniEscAux fuel r
    | '\\' :: '\n' :: r => uniEscAux fuel r
    | '\\' :: 'x' :: h1 :: h2 :: r =>
      if isHexC h1 && isHexC h2 then Char.ofNat (16 * hexVal h1 + hexVal h2) :: uniEscAux fuel r
      else '\\' :: 'x' :: h1 :: h2 :: uniEscAux fuel r
    | '\\' :: c1 :: c2 :: c3 :: r =>
      if isOctC c1 && isOctC c2 && isOctC c3 then
        Char.ofNat (64 * octVal c1 + 8 * octVal c2 + octVal c3) :: uniEscAux fuel r
      else if isOctC c1 && isOctC c2 then
        Char.ofNat (8 * octVal c1 + octVal c2) :: uniEscAux fuel (c3 :: r)
      else if isOctC c1 then
        Char.ofNat (octVal c1) :: uniEscAux fuel (c2 :: c3 :: r)
      else '\\' :: c1 :: uniEscAux fuel (c2 :: c3 :: r)
    | '\\' :: c1 :: c2 :: r =>
      if isOctC c1 && isOctC c2 then
        Char.ofNat (8 * octVal c1 + octVal c2) :: uniEscAux fuel r
      else if isOctC c1 then
        Char.ofNat (octVal c1) :: uniEscAux fuel (c2 :: r)
      else '\\' :: c1 :: uniEscAux fuel (c2 :: r)
    | '\\' :: c1 :: r =>
      if isOctC c1 then Char.ofNat (octVal c1) :: uniEscAux fuel r
      else '\\' :: c1 :: uniEscAux fuel r
    | c :: r => c :: uniEscAux fuel r

def unicodeEscape (cs : List Char) : List Char := uniEscAux cs.length cs

/-- `tokenize` of lexer.py: scan with the master pattern, drop SKIP matches
and, for STRING matches, strip the surrounding quotes and decode escape
sequences (`value[1:-1].encode().decode("unicode_escape")`). -/
def tokenize (code : String) : List Token :=
  (scanAux code.data.length code.data).filterMap fun kt =>
    if kt.1 = "SKIP" then none
    else if kt.1 = "STRING" then
      some ⟨kt.1, ⟨unicodeEscape (kt.2.drop 1).dropLast⟩⟩
    else some ⟨kt.1, ⟨kt.2⟩⟩

/-! ### Numeric values

parser.py stores `float(token.value)` in `NumberLiteral` and
transformer.py prints it back with `str`.  The only floats the pipeline
ever builds therefore come from texts matching `\d+(\.\d+)?`.  `PyFloat`
embeds this value domain exactly as an integer part plus the decimal
fraction digits with trailing zeros trimmed; on it, CPython's
`str(float(text))` is the integer part followed by `.0` when the trimmed
fraction is empty and the trimmed fraction digits otherwise (exact for all
short decimal literals, where the IEEE round trip is the identity on the
printed digits). -/

def digitVal (c : Char) : Nat := c.toNat - 48

def natOfDigits (cs : List Char) : Nat :=
  cs.foldl (fun n c => n * 10 + digitVal c) 0

/-- The value `float(text)` of a NUMBER token text. -/
structure PyFloat where
  ip : Nat
  frac : List Nat
deriving DecidableEq, Repr

def trimZeros (ds : List Nat) : List Nat :=
  (ds.reverse.dropWhile (fun d => d == 0)).reverse

/-- `float(text)` for a NUMBER token text. -/
def floatOfNumString (s : String) : PyFloat :=
  let cs := s.data
  let ds := cs.takeWhile isDigitC
  match cs.drop ds.length with
  | '.' :: fs => ⟨natOfDigits ds, trimZeros ((fs.takeWhile isDigitC).map digitVal)⟩
  | _ => ⟨natOfDigits ds, []⟩

/-- `str(value)` for such a float. -/
def pyFloatStr (f : PyFloat) : String :=
  if f.frac.isEmpty then toString f.ip ++ ".0"
  else toString f.ip ++ "." ++ String.join (f.frac.map (fun d => toString d))

/-! ### AST (the dataclasses of parser.py) -/

inductive Node where
  | NumberLiteral (value : PyFloat)
  | StringLiteral (value : String)
  | Identifier (name : String)
  | BinaryOp (left : Node) (op : String) (right : Node)
  | VariableDeclaration (kind : String) (name : String) (value : Node)
  | PrintStatement (value : List Node)
  | FunctionDeclaration (name : String) (params : List String) (body : List Node)
  | CallExpression (callee : Node) (arguments : List Node)
  | ReturnStatement (argument : Node)
  | IfStatement (test : Node) (consequent : List Node) (alternate : Option (List Node))
  | WhileStatement (test : Node) (body : List Node)
  | Assignment (left : Node) (right : Node)

/-! ### Generator (transformer.py) -/

/-- Python's `value.replace(needle, repl)` for a one-character needle:
every occurrence of the character is replaced, all other characters are
copied unchanged. -/
def replaceChars (needle : Char) (repl : List Char) : List Char → List Char
  | [] => []
  | c :: cs => (if c = needle then repl else [c]) ++ replaceChars needle repl cs

def pyReplaceChar (needle : Char) (repl : String) (s : String) : String :=
  ⟨replaceChars needle repl.data s.data⟩

mutual

/-- `transform_node` of transformer.py.  Note that the block-bearing
branches prefix the indent unit to each element of `body_lines` — i.e. to
each statement's whole rendered text — before joining with newlines, and
substitute the single line `    pass` when the joined block text is empty
(Python string truthiness). -/
def transform_node : Node → String
  | .NumberLiteral v => pyFloatStr v
  | .StringLiteral v => "\"" ++ pyReplaceChar '\"' "\\\"" v ++ "\""
  | .Identifier n => n
  | .BinaryOp l op r =>
    "(" ++ transform_node l ++ " " ++ op ++ " " ++ transform_node r ++ ")"
  | .VariableDeclaration _ name value => name ++ " = " ++ transform_node value
  | .Assignment l r => transform_node l ++ " = " ++ transform_node r
  | .PrintStatement vs => "print(" ++ String.intercalate ", " (transform_list vs) ++ ")"
  | .FunctionDeclaration name params body =>
    let bodyS := String.intercalate "\n" ((transform_list body).map (fun line => "    " ++ line))
    "def " ++ name ++ "(" ++ String.intercalate ", " params ++ "):\n" ++
      (if bodyS == "" then "    pass" else bodyS)
  | .CallExpression callee args =>
    transform_node callee ++ "(" ++ String.intercalate ", " (transform_list args) ++ ")"
  | .ReturnStatement a => "return " ++ transform_node a
  | .IfStatement t cons alt =>
    let consS := String.intercalate "\n" ((transform_list cons).map (fun line => "    " ++ line))
    let code := "if " ++ transform_node t ++ ":\n" ++ (if consS == "" then "    pass" else consS)
    (match alt with
     | none => code
     | some a =>
       let altS := String.intercalate "\n" ((transform_list a).map (fun line => "    " ++ line))
       code ++ "\nelse:\n" ++ (if altS == "" then "    pass" else altS))
  | .WhileStatement t body =>
    let bodyS := String.intercalate "\n" ((transform_list body).map (fun line => "    " ++ line))
    "while " ++ transform_node t ++ ":\n" ++ (if bodyS == "" then "    pass" else bodyS)

/-- The list comprehensions `[transform_node(stmt) for stmt in ...]`. -/
def transform_list : List Node → List String
  | [] => []
  | n :: ns => transform_node n :: transform_list ns

end

/-! ### Parser (parser.py)

The cursor state is the pair of the token list and the read position.
parser.py signals malformed input by raising `SyntaxError`; the embedding
returns `Except PError`, with one constructor per raise site carrying the
same data the Python message interpolates.  All recursive parse functions
take a fuel argument (decremented once at every entry) so that the mutual
block is structurally recursive; `outOfFuel` is unreachable for fuel
exceeding the recursion depth, and `runParse` supplies a generous bound. -/

structure Parser where
  tokens : List Token
  pos : Nat
deriving DecidableEq, Repr

/-- The raise sites of parser.py.  `expectedTok` is
`SyntaxError(f"Expected token {type_} {value}, got {self.current()}")`,
with `got` being the value of `self.current()` at raise time. -/
inductive PError where
  | expectedTok (type_ : String) (value : Option String) (got : Option Token)
  | eofInParams
  | invalidParamList
  | expectedLogAfterConsole
  | invalidAssignTarget
  | unexpectedEOI
  | unexpectedToken (tok : Token)
  | indexError
  | outOfFuel
deriving DecidableEq, Repr

namespace Parser

/-- `current`: `self.tokens[self.pos] if self.pos < len(self.tokens) else None`. -/
def current (st : Parser) : Option Token := st.tokens[st.pos]?

def advance (st : Parser) : Parser := ⟨st.tokens, st.pos + 1⟩

/-- Whether the current token has the given type and value (the
`self.current() and self.current().type == k and self.current().value == v`
pattern). -/
def currentIs (st : Parser) (k v : String) : Bool :=
  match current st with
  | some t => t.type == k && t.value == v
  | none => false

def countNL : List Token → Nat
  | [] => 0
  | t :: ts => if t.type == "NEWLINE" then countNL ts + 1 else 0

/-- `skip_newlines`: advance the cursor past consecutive NEWLINE tokens. -/
def skip_newlines (st : Parser) : Parser :=
  ⟨st.tokens, st.pos + countNL (st.tokens.drop st.pos)⟩

/-- `match(*types)`: when the current token exists and its type is among
`types`, consume and return it; otherwise leave the cursor in place and
return nothing.  The token's value is never inspected. -/
def match_ (st : Parser) (types : List String) : Option Token × Parser :=
  match current st with
  | some tok => if types.contains tok.type then (some tok, advance st) else (none, st)
  | none => (none, st)

/-- `expect(type_, value=None)`: call `match(type_)` (which already
advances on a type match), then fail if there was no token or if a value
was requested and the consumed token's value differs.  The reported `got`
token is `self.current()` evaluated after the `match` call. -/
def expect (st : Parser) (type_ : String) (value : Option String) :
    Except PError (Token × Parser) :=
  match match_ st [type_] with
  | (none, st1) => .error (.expectedTok type_ value (current st1))
  | (some token, st1) =>
    match value with
    | some v =>
      if token.value = v then .ok (token, st1)
      else .error (.expectedTok type_ value (current st1))
    | none => .ok (token, st1)

def consOpt (x : Option Node) (xs : List Node) : List Node :=
  match x with
  | some n => n :: xs
  | none => xs

mutual

/-- `Parser.parse`: loop while a current token exists; skip blank lines,
stop at a block-closing brace, and otherwise collect parsed statements. -/
def parse : Nat → Parser → Except PError (List Node × Parser)
  | 0, _ => .error .outOfFuel
  | fuel + 1, st =>
    match current st with
    | none => .ok ([], st)
    | some _ =>
      let st1 := skip_newlines st
      if currentIs st1 "PUNCT" "\x7d" then .ok ([], st1)
      else do
        let (stmtO, st2) ← parse_statement fuel st1
        let (rest, st3) ← parse fuel st2
        .ok (consOpt stmtO rest, st3)

/-- `parse_statement`: first-token dispatch. -/
def parse_statement : Nat → Parser → Except PError (Option Node × Parser)
  | 0, _ => .error .outOfFuel
  | fuel + 1, st =>
    let st1 := skip_newlines st
    match current st1 with
    | none => .ok (none, st1)
    | some tok =>
      if tok.type == "PUNCT" && tok.value == "\x7d" then .ok (none, st1)
      else if tok.type == "ID" && ["let", "const", "var"].contains tok.value then do
        let (_, st2) := match_ st1 ["ID"]
        let (stmt, st3) ← parse_variable_declaration fuel st2
        let (_, st4) ← expect st3 "PUNCT" (some ";")
        .ok (some stmt, st4)
      else if tok.type == "ID" && tok.value == "function" then do
        let (_, st2) := match_ st1 ["ID"]
        let (stmt, st3) ← parse_function_declaration fuel st2
        .ok (some stmt, st3)
      else if tok.type == "ID" && tok.value == "return" then do
        let (stmt, st2) ← parse_return_statement fuel st1
        let (_, st3) ← expect st2 "PUNCT" (some ";")
        .ok (some stmt, st3)
      else if tok.type == "ID" && tok.value == "if" then do
        let (stmt, st2) ← parse_if_statement fuel st1
        .ok (some stmt, st2)
      else if tok.type == "ID" && tok.value == "while" then do
        let (stmt, st2) ← parse_while_statement fuel st1
        .ok (some stmt, st2)
      else if tok.type == "ID" && tok.value == "console" then do
        let (stmt, st2) ← parse_console_log fuel st1
        .ok (some stmt, st2)
      else do
        let (e, st2) ← parse_expression fuel st1
        let (_, st3) ← expect st2 "PUNCT" (some ";")
        .ok (some e, st3)

/-- `parse_variable_declaration`: the declaration keyword is re-read as
`self.tokens[self.pos - 1]` (the just-matched `let`/`const`/`var`). -/
def parse_variable_declaration : Nat → Parser → Except PError (Node × Parser)
  | 0, _ => .error .outOfFuel
  | fuel + 1, st =>
    match st.tokens[st.pos - 1]? with
    | none => .error .indexError
    | some kind_token => do
      let (name_token, st1) ← expect st "ID" none
      let (_, st2) ← expect st1 "OP" (some "=")
      let (e, st3) ← parse_expression fuel st2
      .ok (.VariableDeclaration kind_token.value name_token.value e, st3)

def parse_function_declaration : Nat → Parser → Except PError (Node × Parser)
  | 0, _ => .error .outOfFuel
  | fuel + 1, st => do
    let (name_token, st1) ← expect st "ID" none
    let (_, st2) ← expect st1 "PUNCT" (some "(")
    let (params, st3) ← fnParamsLoop fuel st2
    let (_, st4) ← expect st3 "PUNCT" (some "\x7b")
    let st5 := skip_newlines st4
    let (body, st6) ← fnBodyLoop fuel st5
    let (_, st7) ← expect st6 "PUNCT" (some "\x7d")
    .ok (.FunctionDeclaration name_token.value params body, st7)

/-- The parameter loop of `parse_function_declaration`: identifiers are
appended and a following comma is consumed when present (so the comma
between parameters is optional). -/
def fnParamsLoop : Nat → Parser → Except PError (List String × Parser)
  | 0, _ => .error .outOfFuel
  | fuel + 1, st =>
    match current st with
    | none => .error .eofInParams
    | some tok =>
      if tok.type == "PUNCT" && tok.value == ")" then .ok ([], advance st)
      else if tok.type == "ID" then
        let st1 := advance st
        let st2 := if currentIs st1 "PUNCT" "," then advance st1 else st1
        do
          let (rest, st3) ← fnParamsLoop fuel st2
          .ok (tok.value :: rest, st3)
      else .error .invalidParamList

/-- The body loop of `parse_function_declaration` (with its extra
`skip_newlines` before and after each statement). -/
def fnBodyLoop : Nat → Parser → Except PError (List Node × Parser)
  | 0, _ => .error .outOfFuel
  | fuel + 1, st =>
    match current st with
    | none => .ok ([], st)
    | some tok =>
      if tok.type == "PUNCT" && tok.value == "\x7d" then .ok ([], st)
      else
        let st1 := skip_newlines st
        if currentIs st1 "PUNCT" "\x7d" then .ok ([], st1)
        else do
          let (stmtO, st2) ← parse_statement fuel st1
          let st3 := skip_newlines st2
          let (rest, st4) ← fnBodyLoop fuel st3
          .ok (consOpt stmtO rest, st4)

def parse_return_statement : Nat → Parser → Except PError (Node × Parser)
  | 0, _ => .error .outOfFuel
  | fuel + 1, st => do
    let (_, st1) ← expect st "ID" (some "return")
    let (e, st2) ← parse_expression fuel st1
    .ok (.ReturnStatement e, st2)

def parse_if_statement : Nat → Parser → Except PError (Node × Parser)
  | 0, _ => .error .outOfFuel
  | fuel + 1, st => do
    let (_, st1) ← expect st "ID" (some "if")
    let (_, st2) ← expect st1 "PUNCT" (some "(")
    let (test, st3) ← parse_expression fuel st2
    let (_, st4) ← expect st3 "PUNCT" (some ")")
    let (_, st5) ← expect st4 "PUNCT" (some "\x7b")
    let (cons, st6) ← blockLoop fuel st5
    let (_, st7) ← expect st6 "PUNCT" (some "\x7d")
    if currentIs st7 "ID" "else" then do
      let (_, st8) ← expect st7 "ID" (some "else")
      let (_, st9) ← expect st8 "PUNCT" (some "\x7b")
      let (alt, st10) ← blockLoop fuel st9
      let (_, st11) ← expect st10 "PUNCT" (some "\x7d")
      .ok (.IfStatement test cons (some alt), st11)
    else .ok (.IfStatement test cons none, st7)

/-- The plain block-statement loop used by `parse_if_statement` and
`parse_while_statement`. -/
def blockLoop : Nat → Parser → Except PError (List Node × Parser)
  | 0, _ => .error .outOfFuel
  | fuel + 1, st =>
    match current st with
    | none => .ok ([], st)
    | some tok =>
      if tok.type == "PUNCT" && tok.value == "\x7d" then .ok ([], st)
      else do
        let (stmtO, st1) ← parse_statement fuel st
        let (rest, st2) ← blockLoop fuel st1
        .ok (consOpt stmtO rest, st2)

def parse_while_statement : Nat → Parser → Except PError (Node × Parser)
  | 0, _ => .error .outOfFuel
  | fuel + 1, st => do
    let (_, st1) ← expect st "ID" (some "while")
    let (_, st2) ← expect st1 "PUNCT" (some "(")
    let (test, st3) ← parse_expression fuel st2
    let (_, st4) ← expect st3 "PUNCT" (some ")")
    let (_, st5) ← expect st4 "PUNCT" (some "\x7b")
    let (body, st6) ← blockLoop fuel st5
    let (_, st7) ← expect st6 "PUNCT" (some "\x7d")
    .ok (.WhileStatement test body, st7)

def parse_console_log : Nat → Parser → Except PError (Node × Parser)
  | 0, _ => .error .outOfFuel
  | fuel + 1, st => do
    let (_, st1) ← expect st "ID" (some "console")
    let (_, st2) ← expect st1 "DOT" none
    let (log_id, st3) ← expect st2 "ID" none
    if log_id.value = "log" then do
      let (_, st4) ← expect st3 "PUNCT" (some "(")
      match current st4 with
      | some t =>
        if !(t.type == "PUNCT" && t.value == ")") then do
          let (a, st5) ← parse_expression fuel st4
          let (more, st6) ← clArgsLoop fuel st5
          let (_, st7) ← expect st6 "PUNCT" (some ")")
          let (_, st8) ← expect st7 "PUNCT" (some ";")
          .ok (.PrintStatement (a :: more), st8)
        else do
          let (_, st7) ← expect st4 "PUNCT" (some ")")
          let (_, st8) ← expect st7 "PUNCT" (some ";")
          .ok (.PrintStatement [], st8)
      | none => do
        let (_, st7) ← expect st4 "PUNCT" (some ")")
        let (_, st8) ← expect st7 "PUNCT" (some ";")
        .ok (.PrintStatement [], st8)
    else .error .expectedLogAfterConsole

/-- The `while current is a comma` argument loop of `parse_console_log`. -/
def clArgsLoop : Nat → Parser → Except PError (List Node × Parser)
  | 0, _ => .error .outOfFuel
  | fuel + 1, st =>
    if currentIs st "PUNCT" "," then do
      let (a, st1) ← parse_expression fuel (advance st)
      let (rest, st2) ← clArgsLoop fuel st1
      .ok (a :: rest, st2)
    else .ok ([], st)

def parse_expression : Nat → Parser → Except PError (Node × Parser)
  | 0, _ => .error .outOfFuel
  | fuel + 1, st => parse_assignment fuel st

/-- `parse_assignment`: right-associative; the right side is parsed before
the assignment-target check. -/
def parse_assignment : Nat → Parser → Except PError (Node × Parser)
  | 0, _ => .error .outOfFuel
  | fuel + 1, st => do
    let (node, st1) ← parse_equality fuel st
    if currentIs st1 "OP" "=" then do
      let (_, st2) := match_ st1 ["OP"]
      let (right, st3) ← parse_assignment fuel st2
      match node with
      | .Identifier _ => .ok (.Assignment node right, st3)
      | _ => .error .invalidAssignTarget
    else .ok (node, st1)

def parse_equality : Nat → Parser → Except PError (Node × Parser)
  | 0, _ => .error .outOfFuel
  | fuel + 1, st => do
    let (node, st1) ← parse_comparison fuel st
    eqLoop fuel node st1

def eqLoop : Nat → Node → Parser → Except PError (Node × Parser)
  | 0, _, _ => .error .outOfFuel
  | fuel + 1, node, st =>
    match current st with
    | some t =>
      if t.type == "OP" && (t.value == "==" || t.value == "!=") then do
        let (_, st1) := match_ st ["OP"]
        let (right, st2) ← parse_comparison fuel st1
        eqLoop fuel (.BinaryOp node t.value right) st2
      else .ok (node, st)
    | none => .ok (node, st)

def parse_comparison : Nat → Parser → Except PError (Node × Parser)
  | 0, _ => .error .outOfFuel
  | fuel + 1, st => do
    let (node, st1) ← parse_term fuel st
    cmpLoop fuel node st1

def cmpLoop : Nat → Node → Parser → Except PError (Node × Parser)
  | 0, _, _ => .error .outOfFuel
  | fuel + 1, node, st =>
    match current st with
    | some t =>
      if t.type == "OP" && (t.value == "<" || t.value == ">" || t.value == "<=" || t.value == ">=") then do
        let (_, st1) := match_ st ["OP"]
        let (right, st2) ← parse_term fuel st1
        cmpLoop fuel (.BinaryOp node t.value right) st2
      else .ok (node, st)
    | none => .ok (node, st)

def parse_term : Nat → Parser → Except PError (Node × Parser)
  | 0, _ => .error .outOfFuel
  | fuel + 1, st => do
    let (node, st1) ← parse_factor fuel st
    termLoop fuel node st1

def termLoop : Nat → Node → Parser → Except PError (Node × Parser)
  | 0, _, _ => .error .outOfFuel
  | fuel + 1, node, st =>
    match current st with
    | some t =>
      if t.type == "OP" && (t.value == "+" || t.value == "-") then do
        let (_, st1) := match_ st ["OP"]
        let (right, st2) ← parse_factor fuel st1
        termLoop fuel (.BinaryOp node t.value right) st2
      else .ok (node, st)
    | none => .ok (node, st)

def parse_factor : Nat → Parser → Except PError (Node × Parser)
  | 0, _ => .error .outOfFuel
  | fuel + 1, st => do
    let (node, st1) ← parse_atom fuel st
    factorLoop fuel node st1

def factorLoop : Nat → Node → Parser → Except PError (Node × Parser)
  | 0, _, _ => .error .outOfFuel
  | fuel + 1, node, st =>
    match current st with
    | some t =>
      if t.type == "OP" && (t.value == "*" || t.value == "/") then do
        let (_, st1) := match_ st ["OP"]
        let (right, st2) ← parse_atom fuel st1
        factorLoop fuel (.BinaryOp node t.value right) st2
      else .ok (node, st)
    | none => .ok (node, st)

def parse_atom : Nat → Parser → Except PError (Node × Parser)
  | 0, _ => .error .outOfFuel
  | fuel + 1, st =>
    match current st with
    | none => .error .unexpectedEOI
    | some token =>
      if token.type == "NUMBER" then
        .ok (.NumberLiteral (floatOfNumString token.value), advance st)
      else if token.type == "STRING" then
        .ok (.StringLiteral token.value, advance st)
      else if token.type == "ID" then
        let st1 := advance st
        if currentIs st1 "PUNCT" "(" then do
          let (args, st2) ← callArgsLoop fuel (advance st1)
          let (_, st3) ← expect st2 "PUNCT" (some ")")
          .ok (.CallExpression (.Identifier token.value) args, st3)
        else .ok (.Identifier token.value, st1)
      else if token.type == "PUNCT" && token.value == "(" then do
        let (e, st1) ← parse_expression fuel (advance st)
        let (_, st2) ← expect st1 "PUNCT" (some ")")
        .ok (e, st2)
      else .error (.unexpectedToken token)

/-- The call-argument loop of `parse_atom`: expressions are appended while
the closing parenthesis has not been reached and a following comma is
consumed when present (so the comma between arguments is optional). -/
def callArgsLoop : Nat → Parser → Except PError (List Node × Parser)
  | 0, _ => .error .outOfFuel
  | fuel + 1, st =>
    match current st with
    | none => .ok ([], st)
    | some tok =>
      if tok.type == "PUNCT" && tok.value == ")" then .ok ([], st)
      else do
        let (a, st1) ← parse_expression fuel st
        let st2 := if currentIs st1 "PUNCT" "," then advance st1 else st1
        let (rest, st3) ← callArgsLoop fuel st2
        .ok (a :: rest, st3)

end

end Parser

/-- Run the parser on a token list the way main.py does
(`Parser(tokens).parse()`), with fuel amply above the recursion depth any
such token list can force. -/
def runParse (tokens : List Token) : Except PError (List Node) :=
  (Parser.parse (tokens.length * 30 + 30) ⟨tokens, 0⟩).map Prod.fst

/-- The core pipeline of main.py up to the rendered statement texts:
`tokenize`, `Parser.parse`, then `transform_node` on each top-level node
(the excluded CLI shaping `generate_code` only joins these lines). -/
def translate (code : String) : Except PError (List String) :=
  (runParse (tokenize code)).map (fun ns => ns.map transform_node)

/-! ### Auxiliary lemmas -/

theorem getElem?_drop_cons {α : Type} (l : List α) (n : Nat) (a : α)
    (h : l[n]? = some a) : l.drop n = a :: l.drop (n + 1) := by
  induction l generalizing n with
  | nil => simp at h
  | cons x xs ih =>
    cases n with
    | zero => simp_all
    | succ m =>
      simp only [List.getElem?_cons_succ] at h
      simpa [List.drop_succ_cons] using ih m h

/-- Characterwise description of `value.replace('"', '\\"')`: each double
quote becomes a backslash-quote pair, every other character is copied. -/
def escSpec : List Char → List Char
  | [] => []
  | c :: cs => (if c = '\"' then ['\\', '\"'] else [c]) ++ escSpec cs

theorem replaceChars_quote_escSpec (cs : List Char) :
    replaceChars '\"' ['\\', '\"'] cs = escSpec cs := by
  induction cs with
  | nil => rfl
  | cons c cs ih => simp [replaceChars, escSpec, ih]

theorem escSpec_no_quote (cs : List Char) (h : '\"' ∉ cs) : escSpec cs = cs := by
  induction cs with
  | nil => rfl
  | cons c cs ih =>
    simp only [List.mem_cons, not_or] at h
    have hc : ¬ c = '\"' := fun hcq => h.1 hcq.symm
    simp [escSpec, hc, ih h.2]

/-! ### The claims -/

/-- Claim C1, counterexample.  The claim states that an input byte
matching no lexical category makes `tokenize` fail with a LexError and
that it never returns a token sequence omitting the byte.  In lexer.py the
scan is `master_pat.finditer`, which silently steps over unmatched bytes:
on `a@b` the result is the two-token sequence for `a` and `b` with the `@`
dropped, and no error of any kind is raised (`tokenize` has no failure
outcome at all). -/
theorem C1_counterexample :
    tokenize "a@b" = [⟨"ID", "a"⟩, ⟨"ID", "b"⟩] := rfl

/-- Claim C1, amended.  An input byte matching no lexical category is
silently skipped by `tokenize`, which returns the tokens of the
surrounding text and never fails: `let x = @ 1;` yields exactly the tokens
of `let x = 1;`, and an input consisting only of such bytes yields the
empty token sequence. -/
theorem C1_amended_skip :
    tokenize "let x = @ 1;" = tokenize "let x = 1;"
    ∧ tokenize "@" = ([] : List Token) := ⟨rfl, rfl⟩

/-- Claim C2 (code bug), evaluation at the failing input.  transformer.py
prefixes the indent unit to each rendered statement string of a block, not
to each of its lines, so the lines after the first of a nested multi-line
statement never receive the enclosing block's indent: translating
`function f() { if (x) { return 1; } }` yields `def f():` followed by
`    if x:` followed by `    return 1.0` — the `return` line carries one
indent unit although it is nested two block levels deep (the claimed
per-line prefixing would give it two), which is not even a valid
indentation structure for the target syntax. -/
theorem C2_nested_block_indent_eval :
    translate "function f() \x7b if (x) \x7b return 1; \x7d \x7d" =
      .ok ["def f():\n    if x:\n    return 1.0"]
    ∧ "def f():\n    if x:\n    return 1.0" ≠ "def f():\n    if x:\n        return 1.0" :=
  ⟨rfl, by decide⟩

/-- Claim C3, counterexample.  The claim states that a top-level parse
fails when a block-closing brace appears unconsumed.  `Parser.parse` in
parser.py instead breaks out of its loop at the brace regardless of
nesting level: on the tokens of `let x = 1; } let y = 2;` it returns just
the first declaration, silently omitting the remaining tokens, while the
same input without the stray brace yields both declarations. -/
theorem C3_counterexample :
    runParse (tokenize "let x = 1; \x7d let y = 2;") =
      .ok [.VariableDeclaration "let" "x" (.NumberLiteral ⟨1, []⟩)]
    ∧ runParse (tokenize "let x = 1; let y = 2;") =
      .ok [.VariableDeclaration "let" "x" (.NumberLiteral ⟨1, []⟩),
           .VariableDeclaration "let" "y" (.NumberLiteral ⟨2, []⟩)] := ⟨rfl, rfl⟩

/-- Claim C3, amended.  `parse` stops at the first unconsumed block-closing
brace whatever the invocation depth, returning the statements collected so
far and leaving the cursor on the brace; a top-level call therefore
returns a partial statement sequence rather than failing.  Stated for an
arbitrary cursor standing on a `}` token: parse succeeds immediately with
the empty statement list and an unmoved cursor. -/
theorem C3_amended_stops_at_brace (tokens : List Token) (pos fuel : Nat)
    (hf : 0 < fuel) (h : tokens[pos]? = some ⟨"PUNCT", "\x7d"⟩) :
    Parser.parse fuel ⟨tokens, pos⟩ = .ok ([], ⟨tokens, pos⟩) := by
  cases fuel with
  | zero => exact absurd hf (by simp)
  | succ f =>
    have hd := getElem?_drop_cons tokens pos _ h
    have hnl : Parser.skip_newlines ⟨tokens, pos⟩ = ⟨tokens, pos⟩ := by
      simp [Parser.skip_newlines, hd, Parser.countNL]
    simp [Parser.parse, Parser.current, h, hnl, Parser.currentIs]

/-- Claim C3, witness for the amended theorem. -/
theorem C3_amended_witness :
    Parser.parse 1 ⟨[⟨"PUNCT", "\x7d"⟩], 0⟩ = .ok ([], ⟨[⟨"PUNCT", "\x7d"⟩], 0⟩) :=
  C3_amended_stops_at_brace [⟨"PUNCT", "\x7d"⟩] 0 1 (by decide) (by decide)

/-- Claim C4, counterexample.  Tokenizing the source literal `"a\nb"`
decodes the escape (the value is `a`, newline, `b`), as the claim says;
but rendering that StringLiteral escapes only embedded double quotes, so
the output is a double-quoted string containing the raw newline character,
not the claimed re-escaped form `"a\nb"`. -/
theorem C4_counterexample :
    tokenize "\"a\\nb\"" = [⟨"STRING", "a\nb"⟩]
    ∧ transform_node (.StringLiteral "a\nb") = "\"a\nb\""
    ∧ "\"a\nb\"" ≠ "\"a\\nb\"" := ⟨rfl, rfl, by decide⟩

/-- Claim C4, amended.  The decoding half of the round trip holds —
`"a\nb"` tokenizes to the three-character value `a`, newline, `b` — but
re-rendering emits the decoded characters verbatim between double quotes
(only `"` is escaped), so the output text embeds the raw newline: its
character sequence is quote, `a`, newline, `b`, quote. -/
theorem C4_amended_raw_newline :
    tokenize "\"a\\nb\"" = [⟨"STRING", "a\nb"⟩]
    ∧ (transform_node (.StringLiteral "a\nb")).data = ['\"', 'a', '\n', 'b', '\"'] :=
  ⟨rfl, rfl⟩

/-- Claim C5, counterexample.  For the input `let x + 5;` the claim says
the failing `expect` of operator `=` reports the offending `+` token.  In
parser.py `expect` first calls `match(type_)`, which consumes the `+`
since it only checks the token type, and then interpolates `self.current()`
— now the following token — into the SyntaxError: the reported token is
the NUMBER `5`, not the `+`. -/
theorem C5_counterexample :
    runParse (tokenize "let x + 5;") =
      .error (.expectedTok "OP" (some "=") (some ⟨"NUMBER", "5"⟩))
    ∧ (⟨"NUMBER", "5"⟩ : Token) ≠ ⟨"OP", "+"⟩ := ⟨rfl, by decide⟩

/-- Claim C5, amended.  `match` takes token types only and advances exactly
when the current token's type is among them, never inspecting the value;
`expect` with a requested value therefore consumes a type-matching token
first and, when the value then mismatches, reports the token after the
offending one (`self.current()` after the advance) in its SyntaxError;
with no current token `match` stays put and `expect` reports end of
input. -/
theorem C5_amended_match_expect (st : Parser) (tok : Token) (types : List String)
    (t v : String) :
    (Parser.current st = some tok → types.contains tok.type = true →
      Parser.match_ st types = (some tok, Parser.advance st))
    ∧ (Parser.current st = some tok → types.contains tok.type = false →
      Parser.match_ st types = (none, st))
    ∧ (Parser.current st = none → Parser.match_ st types = (none, st))
    ∧ (Parser.current st = some tok → tok.type = t → tok.value ≠ v →
      Parser.expect st t (some v) =
        .error (.expectedTok t (some v) (Parser.current (Parser.advance st)))) := by
  refine ⟨fun hc hm => ?_, fun hc hm => ?_, fun hc => ?_, fun hc ht hv => ?_⟩
  · have hm2 : tok.type ∈ types := by simpa using hm
    simp [Parser.match_, hc, hm2]
  · have hm2 : tok.type ∉ types := by simpa using hm
    simp [Parser.match_, hc, hm2]
  · simp [Parser.match_, hc]
  · simp [Parser.expect, Parser.match_, hc, ht, hv]

/-- Claim C5, witness for the amended theorem: in `let x + 5;`, with the
cursor on the `+`, `expect` of operator `=` reports the NUMBER token `5`
that follows the offending `+`. -/
theorem C5_amended_witness :
    Parser.expect ⟨tokenize "let x + 5;", 2⟩ "OP" (some "=") =
      .error (.expectedTok "OP" (some "=") (some ⟨"NUMBER", "5"⟩)) :=
  (C5_amended_match_expect ⟨tokenize "let x + 5;", 2⟩ ⟨"OP", "+"⟩ ["OP"] "OP" "=").2.2.2
    rfl rfl (by decide)

/-- Claim C6 (confirmed).  Every BinaryOp node renders as the
unconditionally parenthesized infix form `(left OP right)` with the two
operands rendered recursively, for every operator and every pair of
subtrees, so the rendered grouping always reproduces the tree's
grouping. -/
theorem C6_binaryop_parenthesized (l r : Node) (op : String) :
    transform_node (.BinaryOp l op r) =
      "(" ++ transform_node l ++ " " ++ op ++ " " ++ transform_node r ++ ")" := rfl

/-- Claim C7 (confirmed).  The full pipeline on `let x = 5 + 3;` renders
exactly `x = (5.0 + 3.0)`: the `let` keyword is discarded, the integer
literals pass through `float` and `str` to floating-point text, and the
sum is parenthesized. -/
theorem C7_pipeline_example :
    translate "let x = 5 + 3;" = .ok ["x = (5.0 + 3.0)"] := rfl

/-- Claim C8 (confirmed).  A StringLiteral renders as its decoded value
wrapped in double quotes with exactly the embedded double quotes escaped:
the rendered character sequence is a quote, then the value with each `"`
replaced by `\"` and every other character copied unchanged, then a quote;
in particular a value without double quotes is embedded verbatim.  (The
rendering depends only on the decoded value, which carries no trace of the
source quote kind.) -/
theorem C8_string_render (v : String) :
    transform_node (.StringLiteral v) = "\"" ++ pyReplaceChar '\"' "\\\"" v ++ "\""
    ∧ (transform_node (.StringLiteral v)).data = '\"' :: escSpec v.data ++ ['\"']
    ∧ ('\"' ∉ v.data → transform_node (.StringLiteral v) = "\"" ++ v ++ "\"") := by
  refine ⟨rfl, ?_, fun h => ?_⟩
  · show ("\"" ++ pyReplaceChar '\"' "\\\"" v ++ "\"").data = _
    simp [pyReplaceChar, replaceChars_quote_escSpec]
  · show "\"" ++ pyReplaceChar '\"' "\\\"" v ++ "\"" = "\"" ++ v ++ "\""
    have hv : pyReplaceChar '\"' "\\\"" v = v := by
      show (⟨replaceChars '\"' "\\\"".data v.data⟩ : String) = v
      rw [show "\\\"".data = ['\\', '\"'] from rfl, replaceChars_quote_escSpec,
        escSpec_no_quote v.data h]
    rw [hv]

/-- Claim C8, witness. -/
theorem C8_string_render_witness :
    transform_node (.StringLiteral "hi") = "\"hi\"" :=
  (C8_string_render "hi").2.2 (by decide)

/-- Claim C9 (confirmed).  A FunctionDeclaration, IfStatement branch or
WhileStatement whose block is the empty statement sequence renders that
block as the single indented no-op line `    pass`, never as an empty
block: the function and while cases append `    pass` after the header,
an if with empty consequent puts `    pass` under the conditional header,
and an empty alternate block renders as an `else:` header followed by
`    pass` appended to the same if-rendering (for any consequent). -/
theorem C9_empty_blocks (n : String) (ps : List String) (t : Node) (cs : List Node) :
    transform_node (.FunctionDeclaration n ps []) =
      "def " ++ n ++ "(" ++ String.intercalate ", " ps ++ "):\n" ++ "    pass"
    ∧ transform_node (.IfStatement t [] none) =
      "if " ++ transform_node t ++ ":\n" ++ "    pass"
    ∧ transform_node (.IfStatement t cs (some [])) =
      transform_node (.IfStatement t cs none) ++ "\nelse:\n" ++ "    pass"
    ∧ transform_node (.WhileStatement t []) =
      "while " ++ transform_node t ++ ":\n" ++ "    pass" := ⟨rfl, rfl, rfl, rfl⟩

/-- Claim C10 (confirmed).  The comma between function parameters and
between call arguments is optional: `function f(a b) {...}` parses to the
same FunctionDeclaration as `function f(a, b) {...}`, and `g(1 2);` to the
same CallExpression as `g(1, 2);`, with no SyntaxError. -/
theorem C10_optional_commas :
    runParse (tokenize "function f(a b) \x7b return a; \x7d") =
      .ok [.FunctionDeclaration "f" ["a", "b"] [.ReturnStatement (.Identifier "a")]]
    ∧ runParse (tokenize "function f(a, b) \x7b return a; \x7d") =
      .ok [.FunctionDeclaration "f" ["a", "b"] [.ReturnStatement (.Identifier "a")]]
    ∧ runParse (tokenize "g(1 2);") =
      .ok [.CallExpression (.Identifier "g") [.NumberLiteral ⟨1, []⟩, .NumberLiteral ⟨2, []⟩]]
    ∧ runParse (tokenize "g(1, 2);") =
      .ok [.CallExpression (.Identifier "g") [.NumberLiteral ⟨1, []⟩, .NumberLiteral ⟨2, []⟩]] :=
  ⟨rfl, rfl, rfl, rfl⟩


end PyParseJS
